import Mathlib

/-!
Verification of the VM orchestrator of a virtual machine monitor
(file vmm/src/vm.rs): lifecycle state machine, VM-ops trap handler,
firmware loading, HOB memory resources, migration byte loops, and the
configuration bookkeeping of device removal.

The Rust code is shallowly embedded: machine integers become Nat
(no arithmetic in the verified fragments overflows their Rust types,
apart from places noted explicitly), fallible code returns Except,
and stateful methods become explicit state-passing functions whose
collaborator calls (CPU manager, device manager, memory manager,
hypervisor, file IO) are supplied as outcome parameters, since those
collaborators live outside the verified file.
-/

namespace Vmm

instance instDecEqExcept {ε α : Type} [DecidableEq ε] [DecidableEq α] :
    DecidableEq (Except ε α) := fun x y =>
  match x, y with
  | Except.ok a, Except.ok b =>
    if h : a = b then Decidable.isTrue (by rw [h])
    else Decidable.isFalse (by intro hc; cases hc; exact h rfl)
  | Except.error a, Except.error b =>
    if h : a = b then Decidable.isTrue (by rw [h])
    else Decidable.isFalse (by intro hc; cases hc; exact h rfl)
  | Except.ok _, Except.error _ => Decidable.isFalse (by intro hc; cases hc)
  | Except.error _, Except.ok _ => Decidable.isFalse (by intro hc; cases hc)

/-- The VM lifecycle state, from enum VmState in vmm/src/vm.rs. -/
inductive VmState where
  | Created
  | Running
  | Shutdown
  | Paused
  | BreakPoint
deriving DecidableEq, Repr, Fintype

/-- Errors of VM management, from enum Error in vmm/src/vm.rs.
Only the constructors reachable from the verified operations are
included; payloads of external-crate types (io errors, loader errors,
collaborator errors) are modelled as opaque unit-like data. -/
inductive Error where
  | InvalidStateTransition (from_state : VmState) (to_state : VmState)
  | PoisonedState
  | FirmwareTooLarge
  | FirmwareFile
  | AllocateFirmwareMemory
  | FirmwareLoad
  | KernelLoad
  | KernelMissingPvhHeader
  | LoadCmdLine
  | DeviceManager
  | CpuManager
deriving DecidableEq, Repr

/-- Validation of a lifecycle transition, from VmState::valid_transition
in vmm/src/vm.rs. -/
def VmState.valid_transition (self : VmState) (new_state : VmState) :
    Except Error Unit :=
  match self with
  | VmState.Created =>
    match new_state with
    | VmState.Created | VmState.Shutdown =>
      Except.error (Error.InvalidStateTransition self new_state)
    | VmState.Running | VmState.Paused | VmState.BreakPoint => Except.ok ()
  | VmState.Running =>
    match new_state with
    | VmState.Created | VmState.Running =>
      Except.error (Error.InvalidStateTransition self new_state)
    | VmState.Paused | VmState.Shutdown | VmState.BreakPoint => Except.ok ()
  | VmState.Shutdown =>
    match new_state with
    | VmState.Paused | VmState.Created | VmState.Shutdown
    | VmState.BreakPoint =>
      Except.error (Error.InvalidStateTransition self new_state)
    | VmState.Running => Except.ok ()
  | VmState.Paused =>
    match new_state with
    | VmState.Created | VmState.Paused | VmState.BreakPoint =>
      Except.error (Error.InvalidStateTransition self new_state)
    | VmState.Running | VmState.Shutdown => Except.ok ()
  | VmState.BreakPoint =>
    match new_state with
    | VmState.Created | VmState.Running => Except.ok ()
    | _ => Except.error (Error.InvalidStateTransition self new_state)

/-- The transition table exactly as the specification states it
(spec-side definition, to be compared with the code-side
VmState.valid_transition): from Created only Running, Paused,
BreakPoint; from Running only Shutdown, Paused, BreakPoint; from
Shutdown only Running; from Paused only Running, Shutdown; from
BreakPoint only Created, Running. -/
def spec_legal_transition (s t : VmState) : Bool :=
  match s, t with
  | VmState.Created, VmState.Running => true
  | VmState.Created, VmState.Paused => true
  | VmState.Created, VmState.BreakPoint => true
  | VmState.Running, VmState.Shutdown => true
  | VmState.Running, VmState.Paused => true
  | VmState.Running, VmState.BreakPoint => true
  | VmState.Shutdown, VmState.Running => true
  | VmState.Paused, VmState.Running => true
  | VmState.Paused, VmState.Shutdown => true
  | VmState.BreakPoint, VmState.Created => true
  | VmState.BreakPoint, VmState.Running => true
  | _, _ => false

/-- Bounded physical address bits, from fn physical_bits in
vmm/src/vm.rs. The host bit count comes from the external helper
get_host_cpu_phys_bits and is therefore a parameter here. -/
def physical_bits (host_phys_bits max_phys_bits : Nat) : Nat :=
  min host_phys_bits max_phys_bits

/-- Modelled from the spec: the error type of the external vm-device
bus crate. The spec names MissingAddressRange and speaks of "all other
bus errors"; the model keeps one representative other error kind. -/
inductive BusError where
  | MissingAddressRange
  | Overlap
deriving DecidableEq, Repr

/-- Hypervisor-level VM errors of the external hypervisor crate; only
the kinds surfaced by the trap-handler callbacks are modelled. -/
inductive HypervisorVmError where
  | GuestMemWrite
  | GuestMemRead
deriving DecidableEq, Repr

/-- Modelled from the spec: one registered range of a bus, "an
address-decoded dispatch table from (address, length) to a device".
The device behind the range is modelled by its read behavior (a buffer
transformer given the offset) and whether its write hands back a
synchronization barrier; a faulty flag lets a range fail with the
non-missing error kind so the handler's behavior on other bus errors
is observable. -/
structure BusRange where
  base : Nat
  len : Nat
  readFn : Nat → List Nat → List Nat
  writeBarrier : Bool
  faulty : Bool

/-- Modelled from the spec: the MMIO or PIO bus as a list of registered
ranges. -/
structure Bus where
  ranges : List BusRange

/-- Address decoding on the bus: find the registered range containing
the address. -/
def Bus.resolve (b : Bus) (addr : Nat) : Option BusRange :=
  b.ranges.find? (fun r =>
    decide (r.base ≤ addr) && decide (addr < r.base + r.len))

/-- Bus read: dispatch to the containing range, or fail with
MissingAddressRange leaving the buffer untouched. -/
def Bus.read (b : Bus) (addr : Nat) (data : List Nat) :
    Except BusError (List Nat) :=
  match b.resolve addr with
  | none => Except.error BusError.MissingAddressRange
  | some r =>
    if r.faulty then Except.error BusError.Overlap
    else Except.ok (r.readFn (addr - r.base) data)

/-- Bus write: dispatch to the containing range, returning an optional
barrier, or fail with MissingAddressRange. -/
def Bus.write (b : Bus) (addr : Nat) : Except BusError (Option Unit) :=
  match b.resolve addr with
  | none => Except.error BusError.MissingAddressRange
  | some r =>
    if r.faulty then Except.error BusError.Overlap
    else Except.ok (if r.writeBarrier then some () else none)

/-- Modelled from the spec: base of the legacy PCI configuration port
range of the external pci crate (spec: "if the port falls in the
legacy PCI configuration range, route to a dedicated config device"). -/
def PCI_CONFIG_IO_PORT : Nat := 0xcf8

/-- Modelled from the spec: size of the legacy PCI configuration port
range of the external pci crate. -/
def PCI_CONFIG_IO_PORT_SIZE : Nat := 0x8

/-- MMIO read callback, from VmOpsHandler::mmio_read in vmm/src/vm.rs.
The Rust method mutates the buffer slice in place and logs a warning
on an unregistered address, so the embedding returns the triple
(result, buffer after the call, warning logged). -/
def VmOpsHandler.mmio_read (mmio_bus : Bus) (gpa : Nat)
    (data : List Nat) : Except HypervisorVmError Unit × List Nat × Bool :=
  match mmio_bus.read gpa data with
  | Except.error BusError.MissingAddressRange => (Except.ok (), data, true)
  | Except.error _ => (Except.ok (), data, false)
  | Except.ok data' => (Except.ok (), data', false)

/-- MMIO write callback, from VmOpsHandler::mmio_write in
vmm/src/vm.rs. Returns (result, warning logged, waited on a
barrier). -/
def VmOpsHandler.mmio_write (mmio_bus : Bus) (gpa : Nat) :
    Except HypervisorVmError Unit × Bool × Bool :=
  match mmio_bus.write gpa with
  | Except.error BusError.MissingAddressRange => (Except.ok (), true, false)
  | Except.ok (some _) => (Except.ok (), false, true)
  | _ => (Except.ok (), false, false)

/-- PIO read callback, from VmOpsHandler::pio_read in vmm/src/vm.rs.
The PCI config device's read is the buffer transformer pci_config_read
(offset, buffer). Returns (result, buffer after the call, warning
logged). -/
def VmOpsHandler.pio_read (io_bus : Bus)
    (pci_config_read : Nat → List Nat → List Nat) (port : Nat)
    (data : List Nat) : Except HypervisorVmError Unit × List Nat × Bool :=
  if PCI_CONFIG_IO_PORT ≤ port ∧
      port < PCI_CONFIG_IO_PORT + PCI_CONFIG_IO_PORT_SIZE then
    (Except.ok (), pci_config_read (port - PCI_CONFIG_IO_PORT) data, false)
  else
    match io_bus.read port data with
    | Except.error BusError.MissingAddressRange => (Except.ok (), data, true)
    | Except.error _ => (Except.ok (), data, false)
    | Except.ok data' => (Except.ok (), data', false)

/-- PIO write callback, from VmOpsHandler::pio_write in vmm/src/vm.rs.
Returns (result, warning logged, waited on a barrier). -/
def VmOpsHandler.pio_write (io_bus : Bus) (port : Nat) :
    Except HypervisorVmError Unit × Bool × Bool :=
  if PCI_CONFIG_IO_PORT ≤ port ∧
      port < PCI_CONFIG_IO_PORT + PCI_CONFIG_IO_PORT_SIZE then
    (Except.ok (), false, false)
  else
    match io_bus.write port with
    | Except.error BusError.MissingAddressRange => (Except.ok (), true, false)
    | Except.ok (some _) => (Except.ok (), false, true)
    | _ => (Except.ok (), false, false)

/-- Modelled from the spec: the anyhow-style payload the external
vm-migration error type carries. A payload formatted from a VM Error
keeps that error as data (the code formats it into the message); any
other formatted message is collapsed to a single constructor. -/
inductive Anyhow where
  | ofError (e : Error)
  | message
deriving DecidableEq, Repr

/-- Modelled from the spec: the error type of the external
vm-migration crate, restricted to the variants the verified
operations produce. -/
inductive MigratableError where
  | Pause (a : Anyhow)
  | Resume (a : Anyhow)
  | Restore (a : Anyhow)
  | Snapshot (a : Anyhow)
  | MigrateSend (a : Anyhow)
  | MigrateReceive (a : Anyhow)
deriving DecidableEq, Repr

/-- The VM lifecycle data touched by pause, resume and restore, from
struct Vm in vmm/src/vm.rs: the state under its reader-writer lock and
the saved hypervisor clock (the x86-KVM variant). The clock blob is
opaque and modelled as a Nat; the remaining Vm fields are handles to
collaborators and are immaterial to these operations' state change. -/
structure Vm where
  state : VmState
  saved_clock : Option Nat
deriving DecidableEq, Repr

/-- Outcomes of the collaborator calls made by Vm::pause, supplied as
parameters: lock acquisition, hypervisor get_clock, pending virtio
activation, CPU-manager pause and device-manager pause. -/
structure PauseEnv where
  lock_ok : Bool
  get_clock : Except Unit Nat
  activate : Except Error Unit
  cpu_pause : Except MigratableError Unit
  device_pause : Except MigratableError Unit

/-- Pause operation, from impl Pausable for Vm, fn pause in
vmm/src/vm.rs: acquire the state write lock, validate the transition
to Paused, capture and save the hypervisor clock (its flags reset is
inside the opaque clock value), activate pending virtio devices,
pause the CPU manager, pause the device manager, and only then commit
the new state. Every failure returns before the commit. -/
def Vm.pause (vm : Vm) (env : PauseEnv) :
    Except MigratableError Unit × Vm :=
  if env.lock_ok = false then
    (Except.error (MigratableError.Pause Anyhow.message), vm)
  else
    match vm.state.valid_transition VmState.Paused with
    | Except.error e =>
      (Except.error (MigratableError.Pause (Anyhow.ofError e)), vm)
    | Except.ok _ =>
      match env.get_clock with
      | Except.error _ =>
        (Except.error (MigratableError.Pause Anyhow.message), vm)
      | Except.ok clock =>
        let vm1 : Vm := { vm with saved_clock := some clock }
        match env.activate with
        | Except.error e =>
          (Except.error (MigratableError.Pause (Anyhow.ofError e)), vm1)
        | Except.ok _ =>
          match env.cpu_pause with
          | Except.error e => (Except.error e, vm1)
          | Except.ok _ =>
            match env.device_pause with
            | Except.error e => (Except.error e, vm1)
            | Except.ok _ =>
              (Except.ok (), { vm1 with state := VmState.Paused })

/-- Outcomes of the collaborator calls made by Vm::resume, supplied as
parameters: lock acquisition, CPU-manager resume, hypervisor
set_clock (consulted only when a clock was saved) and device-manager
resume. -/
structure ResumeEnv where
  lock_ok : Bool
  cpu_resume : Except MigratableError Unit
  set_clock : Except Unit Unit
  device_resume : Except MigratableError Unit

/-- Tail of the resume operation shared by the clock and no-clock
paths: resume the device manager, then commit the Running state. -/
def Vm.resume_tail (vm : Vm) (env : ResumeEnv) :
    Except MigratableError Unit × Vm :=
  match env.device_resume with
  | Except.error e => (Except.error e, vm)
  | Except.ok _ => (Except.ok (), { vm with state := VmState.Running })

/-- Resume operation, from impl Pausable for Vm, fn resume in
vmm/src/vm.rs: acquire the state write lock, validate the transition
to Running, resume the CPU manager, restore the saved clock if one is
present, resume the device manager, and only then commit the new
state. Every failure returns before the commit. -/
def Vm.resume (vm : Vm) (env : ResumeEnv) :
    Except MigratableError Unit × Vm :=
  if env.lock_ok = false then
    (Except.error (MigratableError.Resume Anyhow.message), vm)
  else
    match vm.state.valid_transition VmState.Running with
    | Except.error e =>
      (Except.error (MigratableError.Resume (Anyhow.ofError e)), vm)
    | Except.ok _ =>
      match env.cpu_resume with
      | Except.error e => (Except.error e, vm)
      | Except.ok _ =>
        match vm.saved_clock with
        | some _ =>
          match env.set_clock with
          | Except.error _ =>
            (Except.error (MigratableError.Resume Anyhow.message), vm)
          | Except.ok _ => vm.resume_tail env
        | none => vm.resume_tail env

/-- Outcomes of the collaborator calls made by Vm::restore, supplied
as parameters: the state read lock, the clock load from the snapshot,
presence of the three sub-manager snapshots, the sub-manager restore
calls, the second device-manager pass, vCPU start, signal and TTY
setup, and the final state write lock. -/
structure RestoreEnv where
  read_lock_ok : Bool
  load_clock : Except Unit (Option Nat)
  has_memory_manager_snapshot : Bool
  memory_manager_restore : Except MigratableError Unit
  has_device_manager_snapshot : Bool
  device_manager_restore : Except MigratableError Unit
  has_cpu_manager_snapshot : Bool
  cpu_manager_restore : Except MigratableError Unit
  device_manager_restore_devices : Except MigratableError Unit
  start_restored_vcpus : Except Unit Unit
  setup_signal_handler : Except Unit Unit
  setup_tty : Except Unit Unit
  write_lock_ok : Bool

/-- Restore operation, from impl Snapshottable for Vm, fn restore in
vmm/src/vm.rs: read the current state, validate the transition to
Paused, load the saved clock from the snapshot, restore the memory
manager, the device manager and the CPU manager from their child
snapshots (a missing child is an error), run the second
device-manager pass, start the restored vCPUs, set up signals and
TTY, and only then commit the Paused state under the write lock. -/
def Vm.restore (vm : Vm) (env : RestoreEnv) :
    Except MigratableError Unit × Vm :=
  if env.read_lock_ok = false then
    (Except.error (MigratableError.Restore Anyhow.message), vm)
  else
    match vm.state.valid_transition VmState.Paused with
    | Except.error e =>
      (Except.error (MigratableError.Restore (Anyhow.ofError e)), vm)
    | Except.ok _ =>
      match env.load_clock with
      | Except.error _ =>
        (Except.error (MigratableError.Restore Anyhow.message), vm)
      | Except.ok clock =>
        let vm1 : Vm := { vm with saved_clock := clock }
        if env.has_memory_manager_snapshot = false then
          (Except.error (MigratableError.Restore Anyhow.message), vm1)
        else
          match env.memory_manager_restore with
          | Except.error e => (Except.error e, vm1)
          | Except.ok _ =>
            if env.has_device_manager_snapshot = false then
              (Except.error (MigratableError.Restore Anyhow.message), vm1)
            else
              match env.device_manager_restore with
              | Except.error e => (Except.error e, vm1)
              | Except.ok _ =>
                if env.has_cpu_manager_snapshot = false then
                  (Except.error (MigratableError.Restore Anyhow.message),
                    vm1)
                else
                  match env.cpu_manager_restore with
                  | Except.error e => (Except.error e, vm1)
                  | Except.ok _ =>
                    match env.device_manager_restore_devices with
                    | Except.error e => (Except.error e, vm1)
                    | Except.ok _ =>
                      match env.start_restored_vcpus with
                      | Except.error _ =>
                        (Except.error
                          (MigratableError.Restore Anyhow.message), vm1)
                      | Except.ok _ =>
                        match env.setup_signal_handler with
                        | Except.error _ =>
                          (Except.error
                            (MigratableError.Restore Anyhow.message), vm1)
                        | Except.ok _ =>
                          match env.setup_tty with
                          | Except.error _ =>
                            (Except.error
                              (MigratableError.Restore Anyhow.message),
                              vm1)
                          | Except.ok _ =>
                            if env.write_lock_ok = false then
                              (Except.error
                                (MigratableError.Restore Anyhow.message),
                                vm1)
                            else
                              (Except.ok (),
                                { vm1 with state := VmState.Paused })

/-- Entry point of the loaded guest image on x86, from struct
EntryPoint: the entry address is absent when raw firmware supplies
its own reset vector. -/
structure EntryPoint where
  entry_addr : Option Nat
deriving DecidableEq, Repr

/-- PVH boot capability reported by the external linux-loader ELF
loader for a successfully loaded kernel. -/
inductive PvhBootCapability where
  | PvhEntryPresent (entry_addr : Nat)
  | PvhEntryNotPresent
deriving DecidableEq, Repr

/-- Outcome of the external linux-loader ELF load attempt: success
with the PVH capability, the invalid-ELF-magic error, or any other
loader error. -/
inductive ElfLoadOutcome where
  | loaded (kernel_load : Nat) (pvh_boot_cap : PvhBootCapability)
  | invalidElfMagicNumber
  | otherLoaderError
deriving DecidableEq, Repr

/-- Checked subtraction of guest addresses, from
GuestAddress::checked_sub of the external vm-memory crate. -/
def checked_sub (a b : Nat) : Option Nat :=
  if b ≤ a then some (a - b) else none

/-- Outcomes of the external calls made by Vm::load_kernel, supplied
as parameters: the ELF load attempt, the seek to the end of the file
(yielding the file size), the RAM-region allocation, the rewind to
the start of the file, the copy of the file into guest memory, and
the command-line write. -/
structure LoadKernelEnv where
  elf_load : ElfLoadOutcome
  seek_end : Except Unit Nat
  add_ram_region_ok : Bool
  rewind_ok : Bool
  read_exact_ok : Bool
  load_cmdline_ok : Bool

/-- Result of Vm::load_kernel together with its guest-visible side
effects: the RAM region added for raw firmware and the (address,
size) of the bytes copied into guest memory. -/
structure LoadKernelTrace where
  result : Except Error EntryPoint
  allocated : Option (Nat × Nat)
  copied : Option (Nat × Nat)
deriving DecidableEq, Repr

/-- Kernel loading on x86, from Vm::load_kernel in vmm/src/vm.rs:
attempt an ELF load; on invalid ELF magic treat the file as raw
firmware (reject sizes over 4 MiB, allocate a RAM region ending at
the 4 GiB boundary, copy the file there, return an absent entry
point); on ELF success write the command line and require a PVH
entry; on any other loader error fail with KernelLoad. -/
def load_kernel (env : LoadKernelEnv) : LoadKernelTrace :=
  match env.elf_load with
  | ElfLoadOutcome.otherLoaderError =>
    { result := Except.error Error.KernelLoad,
      allocated := none, copied := none }
  | ElfLoadOutcome.loaded _ pvh_boot_cap =>
    if env.load_cmdline_ok = false then
      { result := Except.error Error.LoadCmdLine,
        allocated := none, copied := none }
    else
      match pvh_boot_cap with
      | PvhBootCapability.PvhEntryPresent entry_addr =>
        { result := Except.ok { entry_addr := some entry_addr },
          allocated := none, copied := none }
      | PvhBootCapability.PvhEntryNotPresent =>
        { result := Except.error Error.KernelMissingPvhHeader,
          allocated := none, copied := none }
  | ElfLoadOutcome.invalidElfMagicNumber =>
    match env.seek_end with
    | Except.error _ =>
      { result := Except.error Error.FirmwareFile,
        allocated := none, copied := none }
    | Except.ok size =>
      if size > 4 <<< 20 then
        { result := Except.error Error.FirmwareTooLarge,
          allocated := none, copied := none }
      else
        match checked_sub (4 <<< 30) size with
        | none =>
          { result := Except.error Error.FirmwareTooLarge,
            allocated := none, copied := none }
        | some load_address =>
          if env.add_ram_region_ok = false then
            { result := Except.error Error.AllocateFirmwareMemory,
              allocated := none, copied := none }
          else if env.rewind_ok = false then
            { result := Except.error Error.FirmwareFile,
              allocated := some (load_address, size), copied := none }
          else if env.read_exact_ok = false then
            { result := Except.error Error.FirmwareLoad,
              allocated := some (load_address, size), copied := none }
          else
            { result := Except.ok { entry_addr := none },
              allocated := some (load_address, size),
              copied := some (load_address, size) }

/-- The per-range retry loop of Vm::receive_memory_regions in
vmm/src/vm.rs: repeatedly call the memory mapping's read_from
primitive at gpa + offset for the remaining length - offset bytes,
add the byte count it returns to the offset cursor, and stop when the
cursor reaches the length. The external primitive is the parameter
step, mapping the current offset to the transferred byte count or an
error (propagated as a MigrateReceive error); fuel bounds the
iteration count so the embedding is total, with none marking a loop
that did not finish within the given fuel. -/
def receive_range_loop (step : Nat → Except Unit Nat) (length : Nat) :
    (offset fuel : Nat) → Option (Except MigratableError Nat)
  | _, 0 => none
  | offset, fuel + 1 =>
    match step offset with
    | Except.error _ =>
      some (Except.error (MigratableError.MigrateReceive Anyhow.message))
    | Except.ok bytes_read =>
      if offset + bytes_read = length then
        some (Except.ok (offset + bytes_read))
      else receive_range_loop step length (offset + bytes_read) fuel

/-- The per-range retry loop of Vm::send_memory_regions in
vmm/src/vm.rs: identical in structure to the receive loop, with the
memory mapping's write_to primitive as the step and errors surfacing
as MigrateSend. -/
def send_range_loop (step : Nat → Except Unit Nat) (length : Nat) :
    (offset fuel : Nat) → Option (Except MigratableError Nat)
  | _, 0 => none
  | offset, fuel + 1 =>
    match step offset with
    | Except.error _ =>
      some (Except.error (MigratableError.MigrateSend Anyhow.message))
    | Except.ok bytes_written =>
      if offset + bytes_written = length then
        some (Except.ok (offset + bytes_written))
      else send_range_loop step length (offset + bytes_written) fuel

/-- One entry of a device list of VmConfig (the external config
types DeviceConfig, UserDeviceConfig, DiskConfig, FsConfig,
NetConfig, PmemConfig, VdpaConfig, VsockConfig): Vm::remove_device
consults only the optional id, so the remaining fields are an opaque
payload. -/
structure DeviceEntry where
  id : Option String
  payload : Nat
deriving DecidableEq, Repr

/-- The shared configuration bundle VmConfig of the external config
module, restricted to the fields Vm::remove_device touches; every
other field of the bundle (cpus, memory, kernel, and so on) is the
opaque rest field. -/
structure VmConfig where
  devices : Option (List DeviceEntry)
  user_devices : Option (List DeviceEntry)
  disks : Option (List DeviceEntry)
  fs : Option (List DeviceEntry)
  net : Option (List DeviceEntry)
  pmem : Option (List DeviceEntry)
  vdpa : Option (List DeviceEntry)
  vsock : Option DeviceEntry
  rest : Nat
deriving DecidableEq, Repr

/-- The retain predicate of Vm::remove_device: keep every entry whose
id differs from the removed id, including entries with no id. -/
def retain_not_id (id : String) (l : List DeviceEntry) :
    List DeviceEntry :=
  l.filter (fun dev => decide (dev.id ≠ some id))

/-- Device removal, from Vm::remove_device in vmm/src/vm.rs: ask the
device manager to remove the device (a failure aborts with the
config untouched), retain the non-matching entries in each device
list of the configuration, clear vsock when its id matches, and
notify PCI hotplug (whose failure surfaces after the config has been
updated). -/
def Vm.remove_device (config : VmConfig) (id : String)
    (dm_remove : Except Unit Unit) (notify : Except Unit Unit) :
    Except Error Unit × VmConfig :=
  match dm_remove with
  | Except.error _ => (Except.error Error.DeviceManager, config)
  | Except.ok _ =>
    let config' : VmConfig :=
      { config with
        devices := Option.map (retain_not_id id) config.devices,
        user_devices := Option.map (retain_not_id id) config.user_devices,
        disks := Option.map (retain_not_id id) config.disks,
        fs := Option.map (retain_not_id id) config.fs,
        net := Option.map (retain_not_id id) config.net,
        pmem := Option.map (retain_not_id id) config.pmem,
        vdpa := Option.map (retain_not_id id) config.vdpa,
        vsock :=
          match config.vsock with
          | some vsock => if vsock.id = some id then none else some vsock
          | none => none }
    match notify with
    | Except.error _ => (Except.error Error.DeviceManager, config')
    | Except.ok _ => (Except.ok (), config')

/-- One firmware section of the trusted-domain firmware table, from
the external TdvfSection type: hob_memory_resources reads only the
address and size fields, so the others (data offset, data size, type,
attributes) are omitted. -/
structure TdvfSection where
  address : Nat
  size : Nat
deriving DecidableEq, Repr

/-- Vec::pop of the Rust standard library on a vector modelled as a
list in the same order: remove and return the last element. -/
def vecPop (v : List TdvfSection) : Option TdvfSection × List TdvfSection :=
  match v.getLast? with
  | none => (none, [])
  | some s => (some s, v.dropLast)

/-- The inner loop of Vm::hob_memory_resources in vmm/src/vm.rs, for
one guest RAM region [region_start, region_end] (end inclusive):
while the cursor is within the region, emit either the current
section (consuming it from the vector) when its address has been
reached, or a RAM chunk up to the section conflict or the region end;
after each emission move the cursor past the emitted triple, raise it
to the region start if still below it, and stop once it passes the
region end. The state threaded through is (cursor, current section,
remaining section vector, emitted triples); fuel bounds the iteration
count so the embedding is total, with none marking fuel exhaustion. -/
def hob_inner (region_start region_end : Nat) :
    (fuel : Nat) → Nat → Option TdvfSection → List TdvfSection →
    List (Nat × Nat × Bool) →
    Option (List (Nat × Nat × Bool) × Option TdvfSection ×
      List TdvfSection × Nat)
  | 0, _, _, _, _ => none
  | fuel + 1, next_start_addr, current_section, sorted_sections, list =>
    let t : Nat × Nat × Bool :=
      match current_section with
      | some sec =>
        if sec.address ≤ next_start_addr then
          (sec.address, sec.size, false)
        else
          (next_start_addr,
            min (sec.address - 1) region_end - next_start_addr + 1,
            true)
      | none => (next_start_addr, region_end - next_start_addr + 1, true)
    let list' := list ++ [t]
    let cs :=
      if t.2.2 = false then vecPop sorted_sections
      else (current_section, sorted_sections)
    let next1 := t.1 + t.2.1
    let next2 := if region_start > next1 then region_start else next1
    if region_end < next2 then some (list', cs.1, cs.2, next2)
    else hob_inner region_start region_end fuel next2 cs.1 cs.2 list'

/-- The outer loop of Vm::hob_memory_resources: iterate the guest RAM
regions, given as (start address, length) pairs in guest-memory
order, raising the cursor to each region's start before running the
inner loop and carrying the cursor, current section and section
vector across regions. -/
def hob_regions :
    (fuel : Nat) → List (Nat × Nat) → Nat → Option TdvfSection →
    List TdvfSection → List (Nat × Nat × Bool) →
    Option (List (Nat × Nat × Bool) × Option TdvfSection ×
      List TdvfSection)
  | _, [], _, cur, stack, list => some (list, cur, stack)
  | fuel, (rs, rlen) :: rest, next_start_addr, cur, stack, list =>
    let region_end := rs + rlen - 1
    let next := if rs > next_start_addr then rs else next_start_addr
    match hob_inner rs region_end fuel next cur stack list with
    | none => none
    | some (list', cur', stack', next') =>
      hob_regions fuel rest next' cur' stack' list'

/-- Partition of the guest address space into (start, size, is_ram)
triples, from Vm::hob_memory_resources in vmm/src/vm.rs: pop the
first current section off the end of the section vector (the caller
passes the sections sorted descending by address, so pop yields them
in ascending order), interleave RAM chunks with sections region by
region, and finally append the current section and every remaining
section (popped last to first, hence the reversal). The fuel is an
upper bound on the inner-loop iterations, each of which either
consumes a section or closes a region. -/
def hob_memory_resources (sorted_sections : List TdvfSection)
    (guest_memory : List (Nat × Nat)) :
    Option (List (Nat × Nat × Bool)) :=
  let fuel := 2 * sorted_sections.length + 2 * guest_memory.length + 8
  let p := vecPop sorted_sections
  match hob_regions fuel guest_memory 0 p.1 p.2 [] with
  | none => none
  | some (list, cur, stack) =>
    let list' :=
      match cur with
      | some sec => list ++ [(sec.address, sec.size, false)]
      | none => list
    some (list' ++ stack.reverse.map (fun s => (s.address, s.size, false)))

/-- The (start, size) intervals of a triple list, discarding the
is_ram flag. -/
def triple_intervals (l : List (Nat × Nat × Bool)) : List (Nat × Nat) :=
  l.map (fun t => (t.1, t.2.1))

/-- The (start, size) intervals of a section list. -/
def section_intervals (l : List TdvfSection) : List (Nat × Nat) :=
  l.map (fun s => (s.address, s.size))

/-- Pairwise disjointness of half-open intervals given as (start,
size) pairs. -/
def pairwise_disjointB : List (Nat × Nat) → Bool
  | [] => true
  | p :: rest =>
    rest.all (fun q =>
        decide (p.1 + p.2 ≤ q.1) || decide (q.1 + q.2 ≤ p.1)) &&
      pairwise_disjointB rest

/-- Membership of a point in the union of half-open intervals given
as (start, size) pairs. -/
def CoversPoint : List (Nat × Nat) → Nat → Prop
  | [], _ => False
  | p :: rest, x => (p.1 ≤ x ∧ x < p.1 + p.2) ∨ CoversPoint rest x

/-- Scenario 1: two sections in the middle of the RAM (sections are
listed descending by address, as the caller sorts them). -/
def hobS1 : List TdvfSection := [⟨0xc000, 0x1000⟩, ⟨0x1000, 0x4000⟩]

/-- Scenario 1 guest RAM. -/
def hobR1 : List (Nat × Nat) := [(0, 0x10000000)]

/-- Scenario 1 expected triples. -/
def hobE1 : List (Nat × Nat × Bool) :=
  [(0, 0x1000, true), (0x1000, 0x4000, false), (0x5000, 0x7000, true),
    (0xc000, 0x1000, false), (0xd000, 0x0fff3000, true)]

/-- Scenario 2: two sections with no conflict with the RAM. -/
def hobS2 : List TdvfSection := [⟨0x10001000, 0x1000⟩, ⟨0, 0x1000⟩]

/-- Scenario 2 guest RAM. -/
def hobR2 : List (Nat × Nat) := [(0x1000, 0x10000000)]

/-- Scenario 2 expected triples. -/
def hobE2 : List (Nat × Nat × Bool) :=
  [(0, 0x1000, false), (0x1000, 0x10000000, true),
    (0x10001000, 0x1000, false)]

/-- Scenario 3: two sections with partial conflicts with the RAM. -/
def hobS3 : List TdvfSection := [⟨0x10000000, 0x2000⟩, ⟨0, 0x2000⟩]

/-- Scenario 3 guest RAM. -/
def hobR3 : List (Nat × Nat) := [(0x1000, 0x10000000)]

/-- Scenario 3 expected triples. -/
def hobE3 : List (Nat × Nat × Bool) :=
  [(0, 0x2000, false), (0x2000, 0x0fffe000, true),
    (0x10000000, 0x2000, false)]

/-- Scenario 4: two sections before and two after the RAM, no
conflicts. -/
def hobS4 : List TdvfSection :=
  [⟨0x20001000, 0x1000⟩, ⟨0x20000000, 0x1000⟩, ⟨0x1000, 0x1000⟩,
    ⟨0, 0x1000⟩]

/-- Scenario 4 guest RAM. -/
def hobR4 : List (Nat × Nat) := [(0x4000, 0x10000000)]

/-- Scenario 4 expected triples. -/
def hobE4 : List (Nat × Nat × Bool) :=
  [(0, 0x1000, false), (0x1000, 0x1000, false),
    (0x4000, 0x10000000, true), (0x20000000, 0x1000, false),
    (0x20001000, 0x1000, false)]

/-- Scenario 5: one section overriding the entire RAM. -/
def hobS5 : List TdvfSection := [⟨0, 0x20000000⟩]

/-- Scenario 5 guest RAM. -/
def hobR5 : List (Nat × Nat) := [(0x1000, 0x10000000)]

/-- Scenario 5 expected triples. -/
def hobE5 : List (Nat × Nat × Bool) := [(0, 0x20000000, false)]

/-- Scenario 6: two sections with no conflict with two RAM regions. -/
def hobS6 : List TdvfSection := [⟨0x10002000, 0x2000⟩, ⟨0, 0x2000⟩]

/-- Scenario 6 guest RAM. -/
def hobR6 : List (Nat × Nat) :=
  [(0x2000, 0x10000000), (0x10004000, 0x10000000)]

/-- Scenario 6 expected triples. -/
def hobE6 : List (Nat × Nat × Bool) :=
  [(0, 0x2000, false), (0x2000, 0x10000000, true),
    (0x10002000, 0x2000, false), (0x10004000, 0x10000000, true)]

/-- Scenario 7: two sections with partial conflicts with two RAM
regions. -/
def hobS7 : List TdvfSection := [⟨0x10000000, 0x4000⟩, ⟨0, 0x4000⟩]

/-- Scenario 7 guest RAM. -/
def hobR7 : List (Nat × Nat) :=
  [(0x1000, 0x10000000), (0x10003000, 0x10000000)]

/-- Scenario 7 expected triples. -/
def hobE7 : List (Nat × Nat × Bool) :=
  [(0, 0x4000, false), (0x4000, 0x0fffc000, true),
    (0x10000000, 0x4000, false), (0x10004000, 0x0ffff000, true)]

/-- A bus with one range at address 0 of length 0x1000 that fails with
the non-missing bus error kind. -/
def singleFaultyBus : Bus :=
  { ranges := [{ base := 0, len := 0x1000, readFn := fun _ d => d,
                 writeBarrier := false, faulty := true }] }

/-- A bus with no registered range at all. -/
def emptyBus : Bus :=
  { ranges := [] }

end Vmm

namespace Vmm

/-- C1: for every ordered pair of the five VM states, valid_transition
returns Ok exactly on the documented legal edges (Created to
Running, Paused or BreakPoint; Running to Shutdown, Paused or
BreakPoint; Shutdown to Running; Paused to Running or Shutdown;
BreakPoint to Created or Running) and returns
Err (InvalidStateTransition s t) on every other pair. -/
theorem valid_transition_matches_spec_table :
    ∀ s t : VmState,
      s.valid_transition t =
        if spec_legal_transition s t then Except.ok ()
        else Except.error (Error.InvalidStateTransition s t) := by
  intro s t
  cases s <;> cases t <;> rfl

/-- C9: physical_bits equals the minimum of the host bit count and the
requested maximum; it is monotone non-decreasing in the maximum and
never exceeds the host bit count. -/
theorem physical_bits_min_monotone_clamped
    (host_phys_bits m m' : Nat) (h : m ≤ m') :
    physical_bits host_phys_bits m = min host_phys_bits m ∧
    physical_bits host_phys_bits m ≤ physical_bits host_phys_bits m' ∧
    physical_bits host_phys_bits m ≤ host_phys_bits := by
  refine ⟨rfl, ?_, ?_⟩
  · exact min_le_min (Nat.le_refl _) h
  · exact Nat.min_le_left _ _

/-- Witness for C9 at host bit count 46, maxima 40 and 52. -/
theorem physical_bits_min_monotone_clamped_witness :
    physical_bits 46 40 = min 46 40 ∧
    physical_bits 46 40 ≤ physical_bits 46 52 ∧
    physical_bits 46 40 ≤ 46 :=
  physical_bits_min_monotone_clamped 46 40 52 (by decide)

/-- C3 counterexample: on a bus whose range at address 0 fails with a
bus error other than MissingAddressRange, the MMIO read callback still
returns success instead of propagating the error, refuting the claim
that every bus error other than MissingAddressRange is returned as
Err to the caller. -/
theorem mmio_read_swallows_other_bus_error :
    singleFaultyBus.read 0 [7] = Except.error BusError.Overlap ∧
    (VmOpsHandler.mmio_read singleFaultyBus 0 [7]).1 = Except.ok () :=
  ⟨rfl, rfl⟩

/-- C3 amended: no bus error is ever propagated by the trap-handler
callbacks; all four return success on every input, and the warning is
logged exactly when the bus fails with MissingAddressRange (for the
PIO callbacks, only ports outside the legacy PCI configuration range
reach the bus). -/
theorem trap_handler_never_propagates_bus_errors :
    ∀ (bus : Bus) (pci_config_read : Nat → List Nat → List Nat)
      (gpa port : Nat) (data : List Nat),
      (VmOpsHandler.mmio_read bus gpa data).1 = Except.ok () ∧
      (VmOpsHandler.mmio_write bus gpa).1 = Except.ok () ∧
      (VmOpsHandler.pio_read bus pci_config_read port data).1 =
        Except.ok () ∧
      (VmOpsHandler.pio_write bus port).1 = Except.ok () ∧
      ((VmOpsHandler.mmio_read bus gpa data).2.2 =
        decide (bus.read gpa data =
          Except.error BusError.MissingAddressRange)) ∧
      ((VmOpsHandler.mmio_write bus gpa).2.1 =
        decide (bus.write gpa =
          Except.error BusError.MissingAddressRange)) ∧
      ((VmOpsHandler.pio_read bus pci_config_read port data).2.2 =
        ((!decide (PCI_CONFIG_IO_PORT ≤ port ∧
            port < PCI_CONFIG_IO_PORT + PCI_CONFIG_IO_PORT_SIZE)) &&
          decide (bus.read port data =
            Except.error BusError.MissingAddressRange))) ∧
      ((VmOpsHandler.pio_write bus port).2.1 =
        ((!decide (PCI_CONFIG_IO_PORT ≤ port ∧
            port < PCI_CONFIG_IO_PORT + PCI_CONFIG_IO_PORT_SIZE)) &&
          decide (bus.write port =
            Except.error BusError.MissingAddressRange))) := by
  intro bus pci_config_read gpa port data
  refine ⟨?_, ?_, ?_, ?_, ?_, ?_, ?_, ?_⟩
  · unfold VmOpsHandler.mmio_read
    cases h : bus.read gpa data with
    | error e => cases e <;> simp
    | ok d => simp
  · unfold VmOpsHandler.mmio_write
    cases h : bus.write gpa with
    | error e => cases e <;> simp
    | ok o => cases o <;> simp
  · unfold VmOpsHandler.pio_read
    by_cases hp : PCI_CONFIG_IO_PORT ≤ port ∧
        port < PCI_CONFIG_IO_PORT + PCI_CONFIG_IO_PORT_SIZE
    · simp [hp]
    · simp only [if_neg hp]
      cases h : bus.read port data with
      | error e => cases e <;> simp
      | ok d => simp
  · unfold VmOpsHandler.pio_write
    by_cases hp : PCI_CONFIG_IO_PORT ≤ port ∧
        port < PCI_CONFIG_IO_PORT + PCI_CONFIG_IO_PORT_SIZE
    · simp [hp]
    · simp only [if_neg hp]
      cases h : bus.write port with
      | error e => cases e <;> simp
      | ok o => cases o <;> simp
  · unfold VmOpsHandler.mmio_read
    cases h : bus.read gpa data with
    | error e => cases e <;> simp [h]
    | ok d => simp [h]
  · unfold VmOpsHandler.mmio_write
    cases h : bus.write gpa with
    | error e => cases e <;> simp [h]
    | ok o => cases o <;> simp [h]
  · unfold VmOpsHandler.pio_read
    by_cases hp : PCI_CONFIG_IO_PORT ≤ port ∧
        port < PCI_CONFIG_IO_PORT + PCI_CONFIG_IO_PORT_SIZE
    · simp [hp]
    · simp only [if_neg hp]
      cases h : bus.read port data with
      | error e => cases e <;> simp [h, hp]
      | ok d => simp [h, hp]
  · unfold VmOpsHandler.pio_write
    by_cases hp : PCI_CONFIG_IO_PORT ≤ port ∧
        port < PCI_CONFIG_IO_PORT + PCI_CONFIG_IO_PORT_SIZE
    · simp [hp]
    · simp only [if_neg hp]
      cases h : bus.write port with
      | error e => cases e <;> simp [h, hp]
      | ok o => cases o <;> simp [h, hp]

/-- C4 counterexample: an MMIO read to an address with no registered
range returns success but leaves the caller's buffer exactly as it
was, refuting the claim that the buffer is zero-filled on return. -/
theorem mmio_read_missing_range_buffer_not_zeroed :
    (VmOpsHandler.mmio_read emptyBus 0 [1]).1 = Except.ok () ∧
    (VmOpsHandler.mmio_read emptyBus 0 [1]).2.1 = [1] ∧
    ([1] : List Nat) ≠ [0] :=
  ⟨rfl, rfl, by decide⟩

/-- C4 amended: when the MMIO read hits an address with no registered
bus range, the callback returns success, logs the warning, and leaves
the caller's buffer unchanged (it is not zero-filled). -/
theorem mmio_read_missing_range_recovered
    (bus : Bus) (gpa : Nat) (data : List Nat)
    (h : bus.resolve gpa = none) :
    VmOpsHandler.mmio_read bus gpa data = (Except.ok (), data, true) := by
  unfold VmOpsHandler.mmio_read Bus.read
  rw [h]

/-- Witness for C4 amended: the empty bus resolves no range at
address 0x100, and the read of buffer [5, 6] returns success with the
buffer unchanged and the warning logged. -/
theorem mmio_read_missing_range_recovered_witness :
    VmOpsHandler.mmio_read emptyBus 0x100 [5, 6] =
      (Except.ok (), [5, 6], true) :=
  mmio_read_missing_range_recovered emptyBus 0x100 [5, 6] rfl

/-- C8: whenever pause or resume returns an error, whatever step the
error came from (lock, transition validation, clock, virtio
activation, the CPU manager or the device manager), the stored VM
state equals the state observed at entry, because the state commit is
the last step of each operation. -/
theorem pause_resume_error_preserves_state
    (vm vm' : Vm) (envp : PauseEnv) (envr : ResumeEnv)
    (ep er : MigratableError)
    (hp : (Vm.pause vm envp).1 = Except.error ep)
    (hr : (Vm.resume vm' envr).1 = Except.error er) :
    ((Vm.pause vm envp).2).state = vm.state ∧
    ((Vm.resume vm' envr).2).state = vm'.state := by
  refine ⟨?_, ?_⟩
  · obtain ⟨s, sc⟩ := vm
    obtain ⟨lk, gc, act, cp, dp⟩ := envp
    cases lk <;> cases gc <;> cases act <;> cases cp <;> cases dp <;>
      cases s <;> simp_all [Vm.pause, VmState.valid_transition]
  · obtain ⟨s, sc⟩ := vm'
    obtain ⟨lk, cr, stc, dr⟩ := envr
    cases lk <;> cases cr <;> cases stc <;> cases dr <;> cases sc <;>
      cases s <;>
      simp_all [Vm.resume, Vm.resume_tail, VmState.valid_transition]

/-- Witness for C8: pause from Created failing at the CPU manager and
resume from Shutdown failing at the CPU manager both leave the stored
state untouched. -/
theorem pause_resume_error_preserves_state_witness :
    ((Vm.pause { state := VmState.Created, saved_clock := none }
        { lock_ok := true, get_clock := Except.ok 5,
          activate := Except.ok (),
          cpu_pause := Except.error (MigratableError.Pause Anyhow.message),
          device_pause := Except.ok () }).2).state = VmState.Created ∧
    ((Vm.resume { state := VmState.Shutdown, saved_clock := none }
        { lock_ok := true,
          cpu_resume := Except.error (MigratableError.Resume Anyhow.message),
          set_clock := Except.ok (),
          device_resume := Except.ok () }).2).state = VmState.Shutdown :=
  pause_resume_error_preserves_state
    { state := VmState.Created, saved_clock := none }
    { state := VmState.Shutdown, saved_clock := none }
    { lock_ok := true, get_clock := Except.ok 5,
      activate := Except.ok (),
      cpu_pause := Except.error (MigratableError.Pause Anyhow.message),
      device_pause := Except.ok () }
    { lock_ok := true,
      cpu_resume := Except.error (MigratableError.Resume Anyhow.message),
      set_clock := Except.ok (),
      device_resume := Except.ok () }
    (MigratableError.Pause Anyhow.message)
    (MigratableError.Resume Anyhow.message) (by decide) (by decide)

/-- A restore environment in which every collaborator call succeeds
and every child snapshot is present. -/
def allOkRestoreEnv : RestoreEnv :=
  { read_lock_ok := true, load_clock := Except.ok none,
    has_memory_manager_snapshot := true,
    memory_manager_restore := Except.ok (),
    has_device_manager_snapshot := true,
    device_manager_restore := Except.ok (),
    has_cpu_manager_snapshot := true,
    cpu_manager_restore := Except.ok (),
    device_manager_restore_devices := Except.ok (),
    start_restored_vcpus := Except.ok (),
    setup_signal_handler := Except.ok (),
    setup_tty := Except.ok (),
    write_lock_ok := true }

/-- C2 counterexample: restore from Shutdown fails even though every
collaborator call would succeed, because the validated transition is
Shutdown to Paused, which the state machine rejects; this refutes the
claim that restore is legal from Shutdown. -/
theorem restore_rejected_from_shutdown :
    Vm.restore { state := VmState.Shutdown, saved_clock := none }
        allOkRestoreEnv =
      (Except.error (MigratableError.Restore (Anyhow.ofError
          (Error.InvalidStateTransition VmState.Shutdown VmState.Paused))),
        { state := VmState.Shutdown, saved_clock := none }) := by
  decide

/-- C2 amended: the restore validation (the transition of the current
state to Paused) succeeds exactly when the current state is Created
or Running; from every other state (Shutdown, Paused, BreakPoint)
restore fails with a Restore error wrapping the invalid transition
and leaves the whole VM record, its state in particular,
unchanged. -/
theorem restore_legal_exactly_from_created_or_running
    (vm : Vm) (env : RestoreEnv) (h : env.read_lock_ok = true) :
    (vm.state.valid_transition VmState.Paused = Except.ok () ↔
      (vm.state = VmState.Created ∨ vm.state = VmState.Running)) ∧
    ((vm.state = VmState.Created ∨ vm.state = VmState.Running) ∨
      Vm.restore vm env =
        (Except.error (MigratableError.Restore (Anyhow.ofError
            (Error.InvalidStateTransition vm.state VmState.Paused))),
          vm)) := by
  obtain ⟨s, sc⟩ := vm
  cases s <;>
    simp_all [Vm.restore, VmState.valid_transition]

/-- Witness for C2 amended, at the Shutdown state with the
all-success environment. -/
theorem restore_legal_exactly_from_created_or_running_witness :
    ((VmState.Shutdown.valid_transition VmState.Paused = Except.ok () ↔
      (VmState.Shutdown = VmState.Created ∨
        VmState.Shutdown = VmState.Running)) ∧
    ((VmState.Shutdown = VmState.Created ∨
        VmState.Shutdown = VmState.Running) ∨
      Vm.restore { state := VmState.Shutdown, saved_clock := none }
          allOkRestoreEnv =
        (Except.error (MigratableError.Restore (Anyhow.ofError
            (Error.InvalidStateTransition VmState.Shutdown
              VmState.Paused))),
          { state := VmState.Shutdown, saved_clock := none }))) :=
  restore_legal_exactly_from_created_or_running
    { state := VmState.Shutdown, saved_clock := none }
    allOkRestoreEnv (by decide)

/-- C7: on x86, when the file has no valid ELF magic it is treated as
raw firmware: a size over 4 MiB fails with FirmwareTooLarge;
otherwise a RAM region of the file's size ending exactly at the 4 GiB
boundary is allocated, the whole file is copied to that address, and
the returned entry point is absent. -/
theorem load_kernel_firmware_fallback
    (env : LoadKernelEnv) (size : Nat)
    (helf : env.elf_load = ElfLoadOutcome.invalidElfMagicNumber)
    (hsz : env.seek_end = Except.ok size)
    (hadd : env.add_ram_region_ok = true)
    (hrw : env.rewind_ok = true)
    (hre : env.read_exact_ok = true) :
    (size > 4 <<< 20 →
      load_kernel env =
        { result := Except.error Error.FirmwareTooLarge,
          allocated := none, copied := none }) ∧
    (size ≤ 4 <<< 20 →
      load_kernel env =
        { result := Except.ok { entry_addr := none },
          allocated := some (4 <<< 30 - size, size),
          copied := some (4 <<< 30 - size, size) } ∧
      (4 <<< 30 - size) + size = 4 <<< 30) := by
  have h20 : (4 <<< 20 : Nat) = 4194304 := by decide
  have h30 : (4 <<< 30 : Nat) = 4294967296 := by decide
  constructor
  · intro hbig
    have hbig' : 4194304 < size := by omega
    simp [load_kernel, helf, hsz, hbig']
  · intro hsmall
    have hnotbig : ¬ (4194304 < size) := by omega
    have hsub : checked_sub 4294967296 size = some (4294967296 - size) := by
      unfold checked_sub
      rw [if_pos (by omega)]
    constructor
    · simp [load_kernel, helf, hsz, hnotbig, hsub, hadd, hrw, hre]
    · omega

/-- C5: for each of the seven documented scenarios,
hob_memory_resources returns exactly the expected list of (start,
size, is_ram) triples (determinism is immediate, the function being
pure), the triples are pairwise non-overlapping, and their union
equals, pointwise, the union of the guest RAM regions and the given
sections. -/
theorem hob_memory_resources_seven_scenarios :
    (hob_memory_resources hobS1 hobR1 = some hobE1 ∧
      pairwise_disjointB (triple_intervals hobE1) = true ∧
      ∀ x, CoversPoint (triple_intervals hobE1) x ↔
        CoversPoint (section_intervals hobS1 ++ hobR1) x) ∧
    (hob_memory_resources hobS2 hobR2 = some hobE2 ∧
      pairwise_disjointB (triple_intervals hobE2) = true ∧
      ∀ x, CoversPoint (triple_intervals hobE2) x ↔
        CoversPoint (section_intervals hobS2 ++ hobR2) x) ∧
    (hob_memory_resources hobS3 hobR3 = some hobE3 ∧
      pairwise_disjointB (triple_intervals hobE3) = true ∧
      ∀ x, CoversPoint (triple_intervals hobE3) x ↔
        CoversPoint (section_intervals hobS3 ++ hobR3) x) ∧
    (hob_memory_resources hobS4 hobR4 = some hobE4 ∧
      pairwise_disjointB (triple_intervals hobE4) = true ∧
      ∀ x, CoversPoint (triple_intervals hobE4) x ↔
        CoversPoint (section_intervals hobS4 ++ hobR4) x) ∧
    (hob_memory_resources hobS5 hobR5 = some hobE5 ∧
      pairwise_disjointB (triple_intervals hobE5) = true ∧
      ∀ x, CoversPoint (triple_intervals hobE5) x ↔
        CoversPoint (section_intervals hobS5 ++ hobR5) x) ∧
    (hob_memory_resources hobS6 hobR6 = some hobE6 ∧
      pairwise_disjointB (triple_intervals hobE6) = true ∧
      ∀ x, CoversPoint (triple_intervals hobE6) x ↔
        CoversPoint (section_intervals hobS6 ++ hobR6) x) ∧
    (hob_memory_resources hobS7 hobR7 = some hobE7 ∧
      pairwise_disjointB (triple_intervals hobE7) = true ∧
      ∀ x, CoversPoint (triple_intervals hobE7) x ↔
        CoversPoint (section_intervals hobS7 ++ hobR7) x) := by
  refine ⟨⟨by decide, by decide, ?_⟩, ⟨by decide, by decide, ?_⟩,
    ⟨by decide, by decide, ?_⟩, ⟨by decide, by decide, ?_⟩,
    ⟨by decide, by decide, ?_⟩, ⟨by decide, by decide, ?_⟩,
    ⟨by decide, by decide, ?_⟩⟩ <;>
    intro x <;>
    simp only [hobS1, hobR1, hobE1, hobS2, hobR2, hobE2, hobS3, hobR3,
      hobE3, hobS4, hobR4, hobE4, hobS5, hobR5, hobE5, hobS6, hobR6,
      hobE6, hobS7, hobR7, hobE7, triple_intervals, section_intervals,
      List.map_cons, List.map_nil, List.cons_append, List.nil_append,
      CoversPoint, or_false] <;>
    omega

/-- Helper for C6: if every step at an offset below length transfers
at least one byte and at most the remaining bytes, the receive loop
run with enough fuel stops with the cursor exactly at length. -/
theorem receive_range_loop_reaches
    (step : Nat → Except Unit Nat) (length : Nat)
    (hstep : ∀ o, o < length →
      ∃ b, step o = Except.ok b ∧ 1 ≤ b ∧ b ≤ length - o) :
    ∀ fuel offset, offset < length → length - offset ≤ fuel →
      receive_range_loop step length offset fuel =
        some (Except.ok length) := by
  intro fuel
  induction fuel with
  | zero => intro offset h1 h2; omega
  | succ n ih =>
    intro offset h1 h2
    obtain ⟨b, hb, hb1, hb2⟩ := hstep offset h1
    simp only [receive_range_loop, hb]
    by_cases he : offset + b = length
    · simp [he]
    · rw [if_neg he]
      exact ih (offset + b) (by omega) (by omega)

/-- Helper for C6: the same statement for the send loop. -/
theorem send_range_loop_reaches
    (step : Nat → Except Unit Nat) (length : Nat)
    (hstep : ∀ o, o < length →
      ∃ b, step o = Except.ok b ∧ 1 ≤ b ∧ b ≤ length - o) :
    ∀ fuel offset, offset < length → length - offset ≤ fuel →
      send_range_loop step length offset fuel =
        some (Except.ok length) := by
  intro fuel
  induction fuel with
  | zero => intro offset h1 h2; omega
  | succ n ih =>
    intro offset h1 h2
    obtain ⟨b, hb, hb1, hb2⟩ := hstep offset h1
    simp only [send_range_loop, hb]
    by_cases he : offset + b = length
    · simp [he]
    · rw [if_neg he]
      exact ih (offset + b) (by omega) (by omega)

/-- C6: for every range length above zero and every reader or writer
whose each call transfers at least one and at most the remaining
number of bytes, the per-range loops of receive_memory_regions and
send_memory_regions terminate (within fuel equal to the length, the
worst case of one byte per call) with the offset cursor exactly equal
to the length; the cursor starts at zero and advances by each call's
byte count, so the total number of bytes transferred equals the
length. -/
theorem memory_region_loops_transfer_exactly
    (step : Nat → Except Unit Nat) (length : Nat) (hpos : 0 < length)
    (hstep : ∀ o, o < length →
      ∃ b, step o = Except.ok b ∧ 1 ≤ b ∧ b ≤ length - o) :
    receive_range_loop step length 0 length = some (Except.ok length) ∧
    send_range_loop step length 0 length = some (Except.ok length) :=
  ⟨receive_range_loop_reaches step length hstep length 0 hpos
      (by omega),
   send_range_loop_reaches step length hstep length 0 hpos (by omega)⟩

/-- Witness for C6: a transfer of 3 bytes by a primitive that moves
one byte per call reaches offset 3 in both loops. -/
theorem memory_region_loops_transfer_exactly_witness :
    receive_range_loop (fun _ => Except.ok 1) 3 0 3 =
      some (Except.ok 3) ∧
    send_range_loop (fun _ => Except.ok 1) 3 0 3 =
      some (Except.ok 3) :=
  memory_region_loops_transfer_exactly (fun _ => Except.ok 1) 3
    (by decide) (fun o ho => ⟨1, rfl, by omega, by omega⟩)

/-- C10: remove_device touches only the device-list fields of
VmConfig: in each list it keeps exactly the entries whose id differs
from the given id (entries with no id included) in their original
order, vsock is cleared exactly when its id matches, and every other
field of the configuration is left untouched; an entry belongs to a
filtered list exactly when it belonged to the original list and its
id is not the removed id. -/
theorem remove_device_updates_only_matching_device_lists :
    ∀ (config : VmConfig) (id : String) (nh : Except Unit Unit),
      ((Vm.remove_device config id (Except.ok ()) nh).2).devices =
          Option.map (retain_not_id id) config.devices ∧
      ((Vm.remove_device config id (Except.ok ()) nh).2).user_devices =
          Option.map (retain_not_id id) config.user_devices ∧
      ((Vm.remove_device config id (Except.ok ()) nh).2).disks =
          Option.map (retain_not_id id) config.disks ∧
      ((Vm.remove_device config id (Except.ok ()) nh).2).fs =
          Option.map (retain_not_id id) config.fs ∧
      ((Vm.remove_device config id (Except.ok ()) nh).2).net =
          Option.map (retain_not_id id) config.net ∧
      ((Vm.remove_device config id (Except.ok ()) nh).2).pmem =
          Option.map (retain_not_id id) config.pmem ∧
      ((Vm.remove_device config id (Except.ok ()) nh).2).vdpa =
          Option.map (retain_not_id id) config.vdpa ∧
      ((Vm.remove_device config id (Except.ok ()) nh).2).vsock =
          (match config.vsock with
            | some vsock => if vsock.id = some id then none else some vsock
            | none => none) ∧
      ((Vm.remove_device config id (Except.ok ()) nh).2).rest =
          config.rest ∧
      (∀ (l : List DeviceEntry) (dev : DeviceEntry),
        dev ∈ retain_not_id id l ↔ (dev ∈ l ∧ dev.id ≠ some id)) := by
  intro config id nh
  cases nh with
  | error e =>
    refine ⟨rfl, rfl, rfl, rfl, rfl, rfl, rfl, rfl, rfl, ?_⟩
    intro l dev
    simp [retain_not_id, List.mem_filter]
  | ok u =>
    refine ⟨rfl, rfl, rfl, rfl, rfl, rfl, rfl, rfl, rfl, ?_⟩
    intro l dev
    simp [retain_not_id, List.mem_filter]

/-- Witness for C7: a 5 MiB blob is rejected as FirmwareTooLarge and a
2 MiB blob is loaded at 0xFFE00000, ending exactly at 4 GiB, with an
absent entry point. -/
theorem load_kernel_firmware_fallback_witness :
    (load_kernel
        { elf_load := ElfLoadOutcome.invalidElfMagicNumber,
          seek_end := Except.ok 0x500000, add_ram_region_ok := true,
          rewind_ok := true, read_exact_ok := true,
          load_cmdline_ok := true } =
      { result := Except.error Error.FirmwareTooLarge,
        allocated := none, copied := none }) ∧
    (load_kernel
        { elf_load := ElfLoadOutcome.invalidElfMagicNumber,
          seek_end := Except.ok 0x200000, add_ram_region_ok := true,
          rewind_ok := true, read_exact_ok := true,
          load_cmdline_ok := true } =
      { result := Except.ok { entry_addr := none },
        allocated := some (4 <<< 30 - 0x200000, 0x200000),
        copied := some (4 <<< 30 - 0x200000, 0x200000) } ∧
      (4 <<< 30 - 0x200000) + 0x200000 = 4 <<< 30) :=
  ⟨(load_kernel_firmware_fallback
      { elf_load := ElfLoadOutcome.invalidElfMagicNumber,
        seek_end := Except.ok 0x500000, add_ram_region_ok := true,
        rewind_ok := true, read_exact_ok := true,
        load_cmdline_ok := true } 0x500000 rfl rfl rfl rfl rfl).1
      (by decide),
   (load_kernel_firmware_fallback
      { elf_load := ElfLoadOutcome.invalidElfMagicNumber,
        seek_end := Except.ok 0x200000, add_ram_region_ok := true,
        rewind_ok := true, read_exact_ok := true,
        load_cmdline_ok := true } 0x200000 rfl rfl rfl rfl rfl).2
      (by decide)⟩

end Vmm
